import Mathlib

/-!
Verification of the deEmergencia client against its design document.

The development shallowly embeds the three source files:

* `src/app/context/AuthContext.tsx` — the authentication session state
  (`AuthState`, `initialState`, `authReducer` together with its token-storage
  side effects, and the async orchestration functions `login`, `logout`,
  `checkExistingAuth`, parameterised by the outcome of the remote call);
* `src/app/screens/business/menu/AddMenuItemScreen.tsx` — the menu-item form
  validation (`validateForm`) and the review modal submission gate
  (`handleSubmit`);
* `src/app/services/BarService.tsx` — the service-client methods
  `createReview`, `checkUserReview`, `isBarFavorite`, parameterised by the
  outcome of the single HTTP call each issues.

JavaScript primitives used by the code (`String.prototype.trim`,
`parseFloat`, the `x || y` fallback on optional strings) are modelled
explicitly (`jsTrim`, `jsParseFloat`, `jsOr`); numeric strings are modelled
by exact rationals.
-/

/-- Modelled from the spec: the `User` record of `AuthService` (not under
`src/`): "identifier, account type (`business` or ordinary), profile fields".
Only the fields the embedded sources read are kept. -/
structure User where
  _id : String
  accountType : String
deriving DecidableEq

/-- The `AuthState` interface of `AuthContext.tsx`. -/
structure AuthState where
  isAuthenticated : Bool
  isLoading : Bool
  user : Option User
  error : Option String
deriving DecidableEq

/-- The `initialState` constant of `AuthContext.tsx`. -/
def initialState : AuthState :=
  { isAuthenticated := false, isLoading := true, user := none, error := none }

/-- The `AuthAction` discriminated union of `AuthContext.tsx`.  The
constructor `UNKNOWN ty` stands for any runtime action object whose `type`
string `ty` is none of the seven declared tags; such an action reaches the
`default` case of the reducer. -/
inductive AuthAction where
  | AUTH_START
  | AUTH_SUCCESS (user : User) (token : Option String)
  | AUTH_FAILURE (error : String)
  | AUTH_LOGOUT
  | AUTH_COMPLETE_WITHOUT_USER
  | UPDATE_USER (user : User)
  | CLEAR_ERROR
  | UNKNOWN (ty : String)
deriving DecidableEq

/-- The pure part of `authReducer` in `AuthContext.tsx`: the state object
returned by each `case`. -/
def authReducer (state : AuthState) (action : AuthAction) : AuthState :=
  match action with
  | .AUTH_START =>
      { state with isLoading := true, error := none }
  | .AUTH_SUCCESS u _ =>
      { state with isAuthenticated := true, isLoading := false,
                   user := some u, error := none }
  | .AUTH_FAILURE e =>
      { state with isAuthenticated := false, isLoading := false,
                   user := none, error := some e }
  | .AUTH_LOGOUT =>
      { state with isAuthenticated := false, isLoading := false,
                   user := none, error := none }
  | .AUTH_COMPLETE_WITHOUT_USER =>
      { state with isAuthenticated := false, isLoading := false,
                   user := none, error := none }
  | .UPDATE_USER u =>
      { state with user := some u, error := none }
  | .CLEAR_ERROR =>
      { state with error := none }
  | .UNKNOWN _ => state

/-- The token-storage side effects of `authReducer`: `AUTH_SUCCESS` calls
`saveToken` under `if (action.payload.token)`, a truthiness test, so an
absent or empty-string token is not saved; `AUTH_FAILURE` and
`AUTH_LOGOUT` call `removeToken`.  The store is `some t` when a token `t`
is persisted under the fixed storage key, `none` otherwise. -/
def tokenEffect (store : Option String) (action : AuthAction) : Option String :=
  match action with
  | .AUTH_SUCCESS _ (some t) => if t = "" then store else some t
  | .AUTH_SUCCESS _ none => store
  | .AUTH_FAILURE _ => none
  | .AUTH_LOGOUT => none
  | _ => store

/-- One dispatch through the reducer: the returned state together with the
token-storage effect. -/
def authStep (p : AuthState × Option String) (a : AuthAction) :
    AuthState × Option String :=
  (authReducer p.1 a, tokenEffect p.2 a)

/-- Folding a sequence of dispatched events through the pure reducer. -/
def applyEvents (s : AuthState) (es : List AuthAction) : AuthState :=
  es.foldl authReducer s

/-- An event is settling when it ends the loading phase by fixing the
authentication outcome: `AUTH_SUCCESS`, `AUTH_FAILURE`, `AUTH_LOGOUT` or
`AUTH_COMPLETE_WITHOUT_USER`. -/
def isSettling : AuthAction → Bool
  | .AUTH_SUCCESS _ _ => true
  | .AUTH_FAILURE _ => true
  | .AUTH_LOGOUT => true
  | .AUTH_COMPLETE_WITHOUT_USER => true
  | _ => false

/-- Whether an event is an `AUTH_SUCCESS` (which always carries a user). -/
def isSuccessEvent : AuthAction → Bool
  | .AUTH_SUCCESS _ _ => true
  | _ => false

/-- The most recent settling event of an event sequence, when any. -/
def lastSettling : List AuthAction → Option AuthAction
  | [] => none
  | e :: rest =>
      match lastSettling rest with
      | some a => some a
      | none => if isSettling e then some e else none

/-- The `AuthResponse` shape returned by the auth API wrappers: a success
flag with optional message, user and token. -/
structure AuthResponse where
  success : Bool
  message : Option String
  user : Option User
  token : Option String
deriving DecidableEq

/-- The JavaScript fallback `x || y` applied to an optional string field
`x` with a string default `y`: an absent or empty (falsy) string yields the
default. -/
def jsOr (x : Option String) (y : String) : String :=
  match x with
  | some s => if s = "" then y else s
  | none => y

/-- Outcome of one remote auth API call as observed by the caller: either
the promise resolves with an `AuthResponse`, or it rejects / throws (the
`tag` names the thrown value, which the code never inspects). -/
inductive RemoteOutcome where
  | resp (r : AuthResponse)
  | thrown (tag : String)
deriving DecidableEq

/-- Result of the `login` orchestration: the `AuthResponse` the caller's
promise resolves with, plus the session state and token store it leaves
behind. -/
structure LoginResult where
  response : AuthResponse
  state : AuthState
  store : Option String
deriving DecidableEq

/-- The `login` function of `AuthContext.tsx`, parameterised by the outcome
of `authService.login(credentials)`.  It dispatches `AUTH_START`, then
either `AUTH_SUCCESS` (success response carrying a user), `AUTH_FAILURE`
with the response message or the fallback message, or — when the call
throws — `AUTH_FAILURE` with a fixed message while resolving the caller's
promise with a `success := false` response. -/
def login (outcome : RemoteOutcome) (p : AuthState × Option String) : LoginResult :=
  let p1 := authStep p .AUTH_START
  match outcome with
  | .resp r =>
      match r.success, r.user with
      | true, some u =>
          let p2 := authStep p1 (.AUTH_SUCCESS u r.token)
          { response := r, state := p2.1, store := p2.2 }
      | _, _ =>
          let p2 := authStep p1 (.AUTH_FAILURE (jsOr r.message "Error en el login"))
          { response := r, state := p2.1, store := p2.2 }
  | .thrown _ =>
      let p2 := authStep p1 (.AUTH_FAILURE "Error durante el login")
      { response := { success := false, message := some "Error durante el login",
                      user := none, token := none },
        state := p2.1, store := p2.2 }

/-- Outcome of the remote `authService.logout()` call: resolved, or
rejected / thrown with some value. -/
inductive LogoutOutcome where
  | ok
  | failed (tag : String)
deriving DecidableEq

/-- The `logout` function of `AuthContext.tsx`, parameterised by the
outcome of the remote call: the `try` branch dispatches `AUTH_LOGOUT` after
a successful remote logout, and the `catch` branch forces the same local
`AUTH_LOGOUT` when the remote call fails. -/
def logout (outcome : LogoutOutcome) (p : AuthState × Option String) :
    AuthState × Option String :=
  match outcome with
  | .ok => authStep p .AUTH_LOGOUT
  | .failed _ => authStep p .AUTH_LOGOUT

/-- Result of the `checkExistingAuth` startup routine: the settled session
state, the token store it leaves behind, and whether the remote
token-validation endpoint was called at all. -/
structure StartupResult where
  state : AuthState
  store : Option String
  validateCalled : Bool
deriving DecidableEq

/-- The `checkExistingAuth` function of `AuthContext.tsx`, run from
`initialState` at mount.  `authService.hasToken` and
`authService.validateToken` live in `AuthService` (not under `src/`);
modelled from the spec, `hasToken` reports whether the single persisted
token is present, and the validation outcome is a parameter.  With no
token the routine dispatches `AUTH_COMPLETE_WITHOUT_USER` without any
network call; otherwise it dispatches `AUTH_SUCCESS` on a success response
carrying a user, `AUTH_FAILURE` with the response message or the fixed
fallback on any other response, and `AUTH_FAILURE` with a fixed message
when the call throws. -/
def checkExistingAuth (store : Option String) (outcome : RemoteOutcome) :
    StartupResult :=
  let p1 := authStep (initialState, store) .AUTH_START
  if p1.2.isSome then
    match outcome with
    | .resp r =>
        match r.success, r.user with
        | true, some u =>
            let p2 := authStep p1 (.AUTH_SUCCESS u none)
            { state := p2.1, store := p2.2, validateCalled := true }
        | _, _ =>
            let p2 := authStep p1
              (.AUTH_FAILURE (jsOr r.message "Token inválido o expirado"))
            { state := p2.1, store := p2.2, validateCalled := true }
    | .thrown _ =>
        let p2 := authStep p1 (.AUTH_FAILURE "Error al verificar autenticación")
        { state := p2.1, store := p2.2, validateCalled := true }
  else
    let p2 := authStep p1 .AUTH_COMPLETE_WITHOUT_USER
    { state := p2.1, store := p2.2, validateCalled := false }

/-- JavaScript `String.prototype.trim`: drop whitespace characters from
both ends of the string. -/
def jsTrim (s : String) : String :=
  ⟨((s.data.dropWhile Char.isWhitespace).reverse.dropWhile
      Char.isWhitespace).reverse⟩

/-- Value of a digit string read in base ten. -/
def digitsToNat (ds : List Char) : Nat :=
  ds.foldl (fun n c => 10 * n + (c.toNat - '0'.toNat)) 0

/-- JavaScript `parseFloat` on finite decimal notation, modelled exactly
over the rationals: skip leading whitespace, read an optional sign, an
integer part, an optional fractional part and an optional exponent, taking
the longest valid numeric prefix; `none` models `NaN` (no digits found).
`Infinity` literals and double-precision rounding are outside the model. -/
def jsParseFloat (s : String) : Option ℚ :=
  let cs := s.data.dropWhile Char.isWhitespace
  let sign : ℤ × List Char :=
    match cs with
    | '-' :: r => (-1, r)
    | '+' :: r => (1, r)
    | _ => (1, cs)
  let intDigits := sign.2.takeWhile Char.isDigit
  let rest1 := sign.2.dropWhile Char.isDigit
  let frac : List Char × List Char :=
    match rest1 with
    | '.' :: r => (r.takeWhile Char.isDigit, r.dropWhile Char.isDigit)
    | _ => ([], rest1)
  if intDigits = [] ∧ frac.1 = [] then none
  else
    let k := frac.1.length
    let mantNum : ℤ :=
      sign.1 * (digitsToNat intDigits * 10 ^ k + digitsToNat frac.1)
    let expVal : ℤ :=
      match frac.2 with
      | e :: r =>
          if e = 'e' ∨ e = 'E' then
            let esign : ℤ × List Char :=
              match r with
              | '-' :: r2 => (-1, r2)
              | '+' :: r2 => (1, r2)
              | _ => (1, r)
            let eds := esign.2.takeWhile Char.isDigit
            if eds = [] then 0 else esign.1 * (digitsToNat eds : ℤ)
          else 0
      | [] => 0
    if 0 ≤ expVal then
      some (mkRat (mantNum * 10 ^ expVal.toNat) (10 ^ k))
    else
      some (mkRat mantNum (10 ^ k * 10 ^ (-expVal).toNat))

/-- The `MenuItemForm` interface of `AddMenuItemScreen.tsx`; every field is
the raw string of its text input, and `ty` is the `type` field
(`"alcohol" | "comida" | "bebida"`). -/
structure MenuItemForm where
  name : String
  description : String
  price : String
  photo : String
  ty : String
  alcoholPercentage : String
  volume : String
deriving DecidableEq

/-- The per-field error record built by `validateForm` (the `newErrors`
object): `some msg` when the field receives an error message. -/
structure MenuItemErrors where
  name : Option String
  description : Option String
  price : Option String
  alcoholPercentage : Option String
  volume : Option String
  photo : Option String
deriving DecidableEq

/-- The error-collection phase of `validateForm` in `AddMenuItemScreen.tsx`,
parameterised by the `isValidUrl` predicate (which wraps the platform `URL`
constructor). -/
def validateErrors (isUrl : String → Bool) (f : MenuItemForm) : MenuItemErrors :=
  { name := if jsTrim f.name = "" then some "Name is required" else none,
    description :=
      if jsTrim f.description = "" then some "Description is required" else none,
    price :=
      if jsTrim f.price = "" then some "Price is required"
      else
        match jsParseFloat f.price with
        | none => some "Price must be a positive number"
        | some q => if q < 0 then some "Price must be a positive number" else none,
    alcoholPercentage :=
      if f.ty = "alcohol" then
        if jsTrim f.alcoholPercentage = "" then
          some "Alcohol percentage is required for alcoholic items"
        else
          match jsParseFloat f.alcoholPercentage with
          | none => some "Alcohol percentage must be between 0 and 100"
          | some q =>
              if q ≤ 0 ∨ 100 < q then
                some "Alcohol percentage must be between 0 and 100"
              else none
      else none,
    volume :=
      if jsTrim f.volume ≠ "" then
        match jsParseFloat f.volume with
        | none => some "Volume must be a positive number"
        | some q => if q < 0 then some "Volume must be a positive number" else none
      else none,
    photo :=
      if f.photo ≠ "" ∧ ¬ isUrl f.photo then some "Please enter a valid URL"
      else none }

/-- The boolean result of `validateForm`: true exactly when `newErrors`
holds no key. -/
def validateForm (isUrl : String → Bool) (f : MenuItemForm) : Bool :=
  let e := validateErrors isUrl f
  e.name.isNone && e.description.isNone && e.price.isNone &&
    e.alcoholPercentage.isNone && e.volume.isNone && e.photo.isNone

/-- All fields other than the alcohol percentage pass `validateForm`'s
checks. -/
def otherFieldsOk (isUrl : String → Bool) (f : MenuItemForm) : Bool :=
  let e := validateErrors isUrl f
  e.name.isNone && e.description.isNone && e.price.isNone &&
    e.volume.isNone && e.photo.isNone

/-- The `existingReview` prop of the review modal: identifier of the review
being edited (its rating and comment only seed the inputs). -/
structure ExistingReview where
  _id : String
deriving DecidableEq

/-- What the review modal's `handleSubmit` does before any network I/O:
either an early-returning client-side alert, or one create / update call. -/
inductive SubmitAction where
  | alertNoRating
  | alertShortComment
  | callUpdate (reviewId : String) (rating : Nat) (comment : String)
  | callCreate (barId : String) (rating : Nat) (comment : String)
deriving DecidableEq

/-- The `handleSubmit` function of the review modal in
`AddMenuItemScreen.tsx`: reject a zero rating, then reject a comment whose
trimmed length is below 10, otherwise issue the update call (when editing
an existing review) or the create call. -/
def handleSubmit (barId : String) (existingReview : Option ExistingReview)
    (rating : Nat) (comment : String) : SubmitAction :=
  if rating = 0 then .alertNoRating
  else if (jsTrim comment).length < 10 then .alertShortComment
  else
    match existingReview with
    | some r => .callUpdate r._id rating (jsTrim comment)
    | none => .callCreate barId rating (jsTrim comment)

/-- Whether the submission reaches the network: only the create / update
calls do. -/
def networkCalled : SubmitAction → Bool
  | .callUpdate _ _ _ => true
  | .callCreate _ _ _ => true
  | _ => false

/-- Outcome of the single HTTP call a `BarService` method issues: the
promise resolves with a value of type `α`, fails with an axios error
(optional `message` field of the response body, plus the axios error
message such as a network / timeout description), or fails with a
non-axios error. -/
inductive ApiOutcome (α : Type) where
  | ok (a : α)
  | axiosFail (bodyMessage : Option String) (message : String)
  | otherFail (tag : String)
deriving DecidableEq

/-- What a `BarService` method throws to its caller: a fresh `Error` with a
message, or the original non-axios error rethrown unchanged. -/
inductive ThrownErr where
  | errMsg (msg : String)
  | raw (tag : String)
deriving DecidableEq

/-- How a `BarService` method settles: its promise resolves with a value or
rejects with a thrown error. -/
inductive CallResult (α : Type) where
  | resolved (a : α)
  | thrown (e : ThrownErr)
deriving DecidableEq

/-- A method's settlement together with whether it issued its HTTP call. -/
structure CallTrace (α : Type) where
  result : CallResult α
  httpCalled : Bool
deriving DecidableEq

/-- Whether a call result is a rejection. -/
def isThrownResult {α : Type} : CallResult α → Bool
  | .thrown _ => true
  | _ => false

/-- The opaque axios response object a successful call resolves with. -/
def RespData : Type := String
deriving DecidableEq

/-- `BarService.createReview`: with no current user it throws
`User not authenticated` before the `try` block; otherwise it posts the
review and, on an axios error, throws a fresh error whose message is the
response body's `message` field when truthy, else the axios message; a
non-axios error is rethrown unchanged.  `authService.getCurrentUser()` is
passed in as `currentUser`. -/
def createReview (currentUser : Option User) (_barId : String)
    (_rating : Nat) (_comment : String) (outcome : ApiOutcome RespData) :
    CallTrace RespData :=
  match currentUser with
  | none => { result := .thrown (.errMsg "User not authenticated"), httpCalled := false }
  | some _ =>
      match outcome with
      | .ok r => { result := .resolved r, httpCalled := true }
      | .axiosFail b m =>
          { result := .thrown (.errMsg (jsOr b m)), httpCalled := true }
      | .otherFail t => { result := .thrown (.raw t), httpCalled := true }

/-- The `{hasReviewed, review?}` shape `checkUserReview` resolves with; the
untyped `review` payload is kept opaque. -/
structure CheckReviewResult where
  hasReviewed : Bool
  review : Option String
deriving DecidableEq

/-- `BarService.checkUserReview`: with no current user it resolves with
`hasReviewed := false` without any HTTP call; otherwise it issues the check
request and resolves with the response data, or with
`hasReviewed := false` when the call fails in any way. -/
def checkUserReview (currentUser : Option User) (_barId : String)
    (outcome : ApiOutcome CheckReviewResult) : CallTrace CheckReviewResult :=
  match currentUser with
  | none =>
      { result := .resolved { hasReviewed := false, review := none },
        httpCalled := false }
  | some _ =>
      match outcome with
      | .ok r => { result := .resolved r, httpCalled := true }
      | .axiosFail _ _ =>
          { result := .resolved { hasReviewed := false, review := none },
            httpCalled := true }
      | .otherFail _ =>
          { result := .resolved { hasReviewed := false, review := none },
            httpCalled := true }

/-- `BarService.isBarFavorite`: with no current user it resolves with
`false` without any HTTP call; otherwise it issues the check request and
resolves with the response's `isFavorite` flag, or with `false` when the
call fails in any way. -/
def isBarFavorite (currentUser : Option User) (_barId : String)
    (outcome : ApiOutcome Bool) : CallTrace Bool :=
  match currentUser with
  | none => { result := .resolved false, httpCalled := false }
  | some _ =>
      match outcome with
      | .ok b => { result := .resolved b, httpCalled := true }
      | .axiosFail _ _ => { result := .resolved false, httpCalled := true }
      | .otherFail _ => { result := .resolved false, httpCalled := true }

theorem isAuthenticated_after_foldl (es : List AuthAction) :
    ∀ s : AuthState,
      (applyEvents s es).isAuthenticated =
        match lastSettling es with
        | some a => isSuccessEvent a
        | none => s.isAuthenticated := by
  induction es with
  | nil => intro s; rfl
  | cons e rest ih =>
      intro s
      show (applyEvents (authReducer s e) rest).isAuthenticated = _
      rw [ih]
      cases h : lastSettling rest with
      | some a => simp [lastSettling, h]
      | none =>
          simp only [lastSettling, h]
          cases e <;> simp [authReducer, isSettling, isSuccessEvent]

/-- C1: for every event sequence applied from `initialState`,
`isAuthenticated` is true iff the most recent settling event is an
`AUTH_SUCCESS` (which always carries a user); it is false immediately
after any `AUTH_FAILURE` or `AUTH_LOGOUT`; and `AUTH_START`,
`UPDATE_USER` and `CLEAR_ERROR` never change `isAuthenticated`. -/
theorem auth_settled_success_iff_authenticated :
    (∀ es : List AuthAction,
       ((applyEvents initialState es).isAuthenticated = true ↔
         ∃ u t, lastSettling es = some (.AUTH_SUCCESS u t))) ∧
    (∀ (s : AuthState) (e : String),
       (authReducer s (.AUTH_FAILURE e)).isAuthenticated = false) ∧
    (∀ s : AuthState, (authReducer s .AUTH_LOGOUT).isAuthenticated = false) ∧
    (∀ s : AuthState,
       (authReducer s .AUTH_START).isAuthenticated = s.isAuthenticated) ∧
    (∀ (s : AuthState) (u : User),
       (authReducer s (.UPDATE_USER u)).isAuthenticated = s.isAuthenticated) ∧
    (∀ s : AuthState,
       (authReducer s .CLEAR_ERROR).isAuthenticated = s.isAuthenticated) := by
  refine ⟨?_, fun s e => rfl, fun s => rfl, fun s => rfl, fun s u => rfl, fun s => rfl⟩
  intro es
  rw [isAuthenticated_after_foldl]
  cases h : lastSettling es with
  | none => simp [initialState]
  | some a =>
      cases a <;> simp [isSuccessEvent]

theorem session_inv_after_foldl (es : List AuthAction) :
    ∀ s : AuthState,
      ((s.isAuthenticated = true → s.user ≠ none) ∧
       (s.isLoading = true → s.error = none)) →
      ((applyEvents s es).isAuthenticated = true → (applyEvents s es).user ≠ none) ∧
      ((applyEvents s es).isLoading = true → (applyEvents s es).error = none) := by
  induction es with
  | nil => intro s h; exact h
  | cons e rest ih =>
      intro s h
      refine ih (authReducer s e) ?_
      cases e <;> simp [authReducer] <;> tauto

/-- C2 (amended): every reachable state satisfies part (1) of the session
invariant, `isAuthenticated` implies `user ≠ null`, and `isLoading`
excludes a pending error (`isLoading` implies `error = null`); `isLoading`
is however not exclusive with `isAuthenticated` (see the counterexample:
`AUTH_START` dispatched from an authenticated state keeps
`isAuthenticated` true while turning `isLoading` on). -/
theorem session_invariant_amended :
    ∀ es : List AuthAction,
      ((applyEvents initialState es).isAuthenticated = true →
        (applyEvents initialState es).user ≠ none) ∧
      ((applyEvents initialState es).isLoading = true →
        (applyEvents initialState es).error = none) := by
  intro es
  exact session_inv_after_foldl es initialState
    ⟨by simp [initialState], by simp [initialState]⟩

/-- C2 counterexample: the state reached from `initialState` by
`AUTH_SUCCESS` then `AUTH_START` has `isLoading` and `isAuthenticated`
both true, so `isLoading` is not mutually exclusive with a settled
success state. -/
theorem session_invariant_counterexample :
    (applyEvents initialState
        [.AUTH_SUCCESS { _id := "u1", accountType := "user" } none,
         .AUTH_START]).isLoading = true ∧
    (applyEvents initialState
        [.AUTH_SUCCESS { _id := "u1", accountType := "user" } none,
         .AUTH_START]).isAuthenticated = true := by
  decide

theorem session_invariant_amended_witness :
    (applyEvents initialState
        [.AUTH_SUCCESS { _id := "u1", accountType := "user" } none,
         .AUTH_START]).user ≠ none ∧
    (applyEvents initialState
        [.AUTH_SUCCESS { _id := "u1", accountType := "user" } none,
         .AUTH_START]).error = none :=
  ⟨(session_invariant_amended
      [.AUTH_SUCCESS { _id := "u1", accountType := "user" } none,
       .AUTH_START]).1 (by decide),
   (session_invariant_amended
      [.AUTH_SUCCESS { _id := "u1", accountType := "user" } none,
       .AUTH_START]).2 (by decide)⟩

/-- C3: whatever the remote logout call does, `logout` ends with the local
session cleared to the unauthenticated state and the stored token removed;
a remote failure never prevents the local `AUTH_LOGOUT` transition. -/
theorem logout_clears_session_unconditionally :
    ∀ (outcome : LogoutOutcome) (s : AuthState) (store : Option String),
      logout outcome (s, store) =
        ({ isAuthenticated := false, isLoading := false,
           user := none, error := none }, none) := by
  intro o s store
  cases o <;> rfl

/-- C9: an action whose `type` is none of the seven known event tags hits
the reducer's `default` case and leaves both the state and the token store
unchanged. -/
theorem unknown_event_leaves_state_unchanged :
    ∀ (s : AuthState) (store : Option String) (ty : String),
      ty ∉ ["AUTH_START", "AUTH_SUCCESS", "AUTH_FAILURE", "AUTH_LOGOUT",
            "AUTH_COMPLETE_WITHOUT_USER", "UPDATE_USER", "CLEAR_ERROR"] →
      authReducer s (.UNKNOWN ty) = s ∧ tokenEffect store (.UNKNOWN ty) = store := by
  intro s store ty _
  exact ⟨rfl, rfl⟩

theorem unknown_event_witness :
    authReducer initialState (.UNKNOWN "SOME_OTHER_EVENT") = initialState ∧
    tokenEffect (some "tok") (.UNKNOWN "SOME_OTHER_EVENT") = some "tok" :=
  unknown_event_leaves_state_unchanged initialState (some "tok")
    "SOME_OTHER_EVENT" (by decide)

/-- C10: `checkUserReview` and `isBarFavorite` are total at the public
interface: whatever the current user and the HTTP outcome, they never
throw; with no current user, or when the call fails in any way, they
resolve with the negative default (`hasReviewed := false`, respectively
`false`), so callers cannot tell an unauthenticated or failed check from a
genuine negative. -/
theorem check_and_favorite_total_with_negative_default :
    (∀ (u : Option User) (barId : String) (o : ApiOutcome CheckReviewResult),
       isThrownResult (checkUserReview u barId o).result = false) ∧
    (∀ (u : Option User) (barId : String) (o : ApiOutcome Bool),
       isThrownResult (isBarFavorite u barId o).result = false) ∧
    (∀ (barId : String) (o : ApiOutcome CheckReviewResult),
       checkUserReview none barId o =
         { result := .resolved { hasReviewed := false, review := none },
           httpCalled := false }) ∧
    (∀ (u : User) (barId : String) (b : Option String) (m : String),
       (checkUserReview (some u) barId (.axiosFail b m)).result =
         .resolved { hasReviewed := false, review := none }) ∧
    (∀ (u : User) (barId : String) (t : String),
       (checkUserReview (some u) barId (.otherFail t)).result =
         .resolved { hasReviewed := false, review := none }) ∧
    (∀ (barId : String) (o : ApiOutcome Bool),
       isBarFavorite none barId o =
         { result := .resolved false, httpCalled := false }) ∧
    (∀ (u : User) (barId : String) (b : Option String) (m : String),
       (isBarFavorite (some u) barId (.axiosFail b m)).result = .resolved false) ∧
    (∀ (u : User) (barId : String) (t : String),
       (isBarFavorite (some u) barId (.otherFail t)).result = .resolved false) := by
  refine ⟨?_, ?_, fun _ _ => rfl, fun _ _ _ _ => rfl, fun _ _ _ => rfl,
          fun _ _ => rfl, fun _ _ _ _ => rfl, fun _ _ _ => rfl⟩
  · intro u barId o
    cases u <;> cases o <;> rfl
  · intro u barId o
    cases u <;> cases o <;> rfl

/-- C8 counterexample: `checkUserReview` with no current user resolves
with `hasReviewed := false` instead of failing fast with a
`User not authenticated` error, so not every method whose endpoint needs a
caller identity throws when unauthenticated. -/
theorem service_failfast_counterexample :
    (checkUserReview none "bar1"
        (.ok { hasReviewed := true, review := some "r1" })).result =
      .resolved { hasReviewed := false, review := none } ∧
    isThrownResult (checkUserReview none "bar1"
        (.ok { hasReviewed := true, review := some "r1" })).result = false := by
  decide

/-- C8 (amended): the throwing methods (here `createReview`) fail fast
with `User not authenticated` before issuing any HTTP call when no current
user is available, and on an axios error throw a single message taken from
the response body's `message` when present and non-empty, falling back to
the transport error message; `checkUserReview` and `isBarFavorite` instead
handle the missing identity by resolving with their negative default,
without any HTTP call. -/
theorem bar_service_identity_and_error_contract :
    (∀ (barId : String) (r : Nat) (c : String) (o : ApiOutcome RespData),
       createReview none barId r c o =
         { result := .thrown (.errMsg "User not authenticated"),
           httpCalled := false }) ∧
    (∀ (u : User) (barId : String) (r : Nat) (c : String)
       (b : Option String) (m : String),
       createReview (some u) barId r c (.axiosFail b m) =
         { result := .thrown (.errMsg (jsOr b m)), httpCalled := true }) ∧
    (∀ m : String, jsOr none m = m) ∧
    (∀ s m : String, s ≠ "" → jsOr (some s) m = s) ∧
    (∀ (barId : String) (o : ApiOutcome CheckReviewResult),
       checkUserReview none barId o =
         { result := .resolved { hasReviewed := false, review := none },
           httpCalled := false }) ∧
    (∀ (barId : String) (o : ApiOutcome Bool),
       isBarFavorite none barId o =
         { result := .resolved false, httpCalled := false }) := by
  refine ⟨fun _ _ _ _ => rfl, fun _ _ _ _ _ _ => rfl, fun _ => rfl, ?_,
          fun _ _ => rfl, fun _ _ => rfl⟩
  intro s m h
  simp [jsOr, h]

theorem bar_service_identity_witness :
    createReview none "bar1" 5 "great place" (.ok "resp") =
      { result := .thrown (.errMsg "User not authenticated"),
        httpCalled := false } ∧
    jsOr (some "Server rejected the review") "Network Error" =
      "Server rejected the review" :=
  ⟨bar_service_identity_and_error_contract.1 "bar1" 5 "great place" (.ok "resp"),
   bar_service_identity_and_error_contract.2.2.2.1
     "Server rejected the review" "Network Error" (by decide)⟩

/-- C4: at initialization, with no stored token `checkExistingAuth` settles
to the unauthenticated state without calling the validation endpoint; with
a stored token that the endpoint rejects (a response that is not a success
carrying a user) it settles to unauthenticated through `AUTH_FAILURE` and
the stored token is removed. -/
theorem startup_auth_check :
    (∀ o : RemoteOutcome,
       checkExistingAuth none o =
         { state := { isAuthenticated := false, isLoading := false,
                      user := none, error := none },
           store := none, validateCalled := false }) ∧
    (∀ (t : String) (r : AuthResponse),
       r.success = false ∨ r.user = none →
         (checkExistingAuth (some t) (.resp r)).state.isAuthenticated = false ∧
         (checkExistingAuth (some t) (.resp r)).state.user = none ∧
         (checkExistingAuth (some t) (.resp r)).state.error =
           some (jsOr r.message "Token inválido o expirado") ∧
         (checkExistingAuth (some t) (.resp r)).store = none) := by
  constructor
  · intro o
    cases o <;> rfl
  · intro t r h
    obtain ⟨su, msg, us, tk⟩ := r
    cases su <;> cases us <;>
      simp_all [checkExistingAuth, authStep, authReducer, tokenEffect, initialState]

theorem startup_auth_check_witness :
    (checkExistingAuth (some "tok0")
        (.resp { success := false, message := none,
                 user := none, token := none })).state.isAuthenticated = false ∧
    (checkExistingAuth (some "tok0")
        (.resp { success := false, message := none,
                 user := none, token := none })).state.user = none ∧
    (checkExistingAuth (some "tok0")
        (.resp { success := false, message := none,
                 user := none, token := none })).state.error =
      some (jsOr none "Token inválido o expirado") ∧
    (checkExistingAuth (some "tok0")
        (.resp { success := false, message := none,
                 user := none, token := none })).store = none :=
  startup_auth_check.2 "tok0"
    { success := false, message := none, user := none, token := none }
    (Or.inl rfl)

/-- C5 counterexample: a success response that carries a user but no token
leaves the token store empty (nothing is stored) while the session becomes
authenticated, so `login` does not store a token on every success response
carrying a user. -/
theorem login_counterexample_tokenless_success :
    (login (.resp { success := true, message := none,
                    user := some { _id := "u1", accountType := "user" },
                    token := none })
        (initialState, none)).state.isAuthenticated = true ∧
    (login (.resp { success := true, message := none,
                    user := some { _id := "u1", accountType := "user" },
                    token := none })
        (initialState, none)).store = none := by
  decide

/-- C5 (amended): `login` never rejects: when the remote call throws it
still resolves with a `success := false` response and moves the session to
an error state; it always resolves with the API's response; on a success
response carrying a user it authenticates the session, storing the token
exactly when the response also carries a non-empty (truthy) token — a
success response with no token, or an empty-string token, authenticates
without touching the store; and on any failure response it settles into an
error state carrying a non-empty human-readable message. -/
theorem login_contract :
    (∀ (tag : String) (p : AuthState × Option String),
       (login (.thrown tag) p).response =
         { success := false, message := some "Error durante el login",
           user := none, token := none } ∧
       (login (.thrown tag) p).state.isAuthenticated = false ∧
       (login (.thrown tag) p).state.error = some "Error durante el login") ∧
    (∀ (r : AuthResponse) (p : AuthState × Option String),
       (login (.resp r) p).response = r) ∧
    (∀ (r : AuthResponse) (u : User) (t : String) (p : AuthState × Option String),
       r.success = true → r.user = some u → r.token = some t → t ≠ "" →
         login (.resp r) p =
           { response := r,
             state := { isAuthenticated := true, isLoading := false,
                        user := some u, error := none },
             store := some t }) ∧
    (∀ (r : AuthResponse) (u : User) (p : AuthState × Option String),
       r.success = true → r.user = some u →
       (r.token = none ∨ r.token = some "") →
         login (.resp r) p =
           { response := r,
             state := { isAuthenticated := true, isLoading := false,
                        user := some u, error := none },
             store := p.2 }) ∧
    (∀ (r : AuthResponse) (p : AuthState × Option String),
       r.success = false ∨ r.user = none →
         (login (.resp r) p).state.isAuthenticated = false ∧
         (login (.resp r) p).state.error =
           some (jsOr r.message "Error en el login") ∧
         jsOr r.message "Error en el login" ≠ "") := by
  refine ⟨fun tag p => ⟨rfl, rfl, rfl⟩, ?_, ?_, ?_, ?_⟩
  · intro r p
    obtain ⟨su, msg, us, tk⟩ := r
    cases su <;> cases us <;> rfl
  · intro r u t p hs hu ht hne
    obtain ⟨su, msg, us, tk⟩ := r
    simp only at hs hu ht
    subst hs hu ht
    simp [login, authStep, authReducer, tokenEffect, hne]
  · intro r u p hs hu htok
    obtain ⟨su, msg, us, tk⟩ := r
    simp only at hs hu htok
    subst hs hu
    rcases htok with h | h <;> subst h <;> rfl
  · intro r p h
    obtain ⟨su, msg, us, tk⟩ := r
    have hne : jsOr msg "Error en el login" ≠ "" := by
      cases msg with
      | none => simp [jsOr]
      | some s =>
          by_cases hs : s = "" <;> simp [jsOr, hs]
    cases su <;> cases us <;>
      simp_all [login, authStep, authReducer, tokenEffect]

theorem login_contract_witness :
    login (.resp { success := true, message := none,
                   user := some { _id := "u1", accountType := "user" },
                   token := some "tk1" }) (initialState, none) =
      { response := { success := true, message := none,
                      user := some { _id := "u1", accountType := "user" },
                      token := some "tk1" },
        state := { isAuthenticated := true, isLoading := false,
                   user := some { _id := "u1", accountType := "user" },
                   error := none },
        store := some "tk1" } ∧
    login (.resp { success := true, message := none,
                   user := some { _id := "u1", accountType := "user" },
                   token := none }) (initialState, some "old") =
      { response := { success := true, message := none,
                      user := some { _id := "u1", accountType := "user" },
                      token := none },
        state := { isAuthenticated := true, isLoading := false,
                   user := some { _id := "u1", accountType := "user" },
                   error := none },
        store := some "old" } ∧
    (login (.resp { success := false, message := some "Bad credentials",
                    user := none, token := none })
        (initialState, none)).state.error = some (jsOr (some "Bad credentials")
          "Error en el login") :=
  ⟨login_contract.2.2.1
      { success := true, message := none,
        user := some { _id := "u1", accountType := "user" },
        token := some "tk1" }
      { _id := "u1", accountType := "user" } "tk1" (initialState, none)
      rfl rfl rfl (by decide),
   login_contract.2.2.2.1
      { success := true, message := none,
        user := some { _id := "u1", accountType := "user" },
        token := none }
      { _id := "u1", accountType := "user" } (initialState, some "old")
      rfl rfl (Or.inl rfl),
   (login_contract.2.2.2.2
      { success := false, message := some "Bad credentials",
        user := none, token := none }
      (initialState, none) (Or.inl rfl)).2.1⟩

theorem validateForm_split (isUrl : String → Bool) (f : MenuItemForm) :
    validateForm isUrl f =
      (otherFieldsOk isUrl f && (validateErrors isUrl f).alcoholPercentage.isNone) := by
  simp only [validateForm, otherFieldsOk]
  generalize validateErrors isUrl f = e
  obtain ⟨n, d, p, a, v, ph⟩ := e
  cases n <;> cases d <;> cases p <;> cases a <;> cases v <;> cases ph <;> rfl

/-- C6: validation requires the alcohol-percentage field exactly when the
item type is `alcohol`: an empty field fails, a non-empty field passes (the
other fields being valid) iff its parsed value lies in the half-open
interval from 0 exclusive to 100 inclusive; with type `comida` the field is
ignored and validation passes whenever the other fields are valid. -/
theorem menu_item_alcohol_validation :
    (∀ (isUrl : String → Bool) (f : MenuItemForm),
       f.ty = "alcohol" → jsTrim f.alcoholPercentage = "" →
         validateForm isUrl f = false) ∧
    (∀ (isUrl : String → Bool) (f : MenuItemForm),
       f.ty = "alcohol" → jsTrim f.alcoholPercentage ≠ "" →
       otherFieldsOk isUrl f = true →
         (validateForm isUrl f = true ↔
           ∃ q : ℚ, jsParseFloat f.alcoholPercentage = some q ∧
             0 < q ∧ q ≤ 100)) ∧
    (∀ (isUrl : String → Bool) (f : MenuItemForm),
       f.ty = "comida" → otherFieldsOk isUrl f = true →
         validateForm isUrl f = true) := by
  refine ⟨?_, ?_, ?_⟩
  · intro isUrl f hty htrim
    rw [validateForm_split]
    have halc : (validateErrors isUrl f).alcoholPercentage =
        some "Alcohol percentage is required for alcoholic items" := by
      simp [validateErrors, hty, htrim]
    simp [halc]
  · intro isUrl f hty htrim hok
    rw [validateForm_split, hok]
    rcases hq : jsParseFloat f.alcoholPercentage with _ | q
    · have halc : (validateErrors isUrl f).alcoholPercentage =
          some "Alcohol percentage must be between 0 and 100" := by
        simp [validateErrors, hty, htrim, hq]
      rw [Bool.true_and, halc]
      simp
    · have halc : (validateErrors isUrl f).alcoholPercentage =
          if q ≤ 0 ∨ 100 < q then
            some "Alcohol percentage must be between 0 and 100"
          else none := by
        simp [validateErrors, hty, htrim, hq]
      by_cases hc : q ≤ 0 ∨ 100 < q
      · rw [Bool.true_and, halc, if_pos hc]
        constructor
        · intro h; simp at h
        · rintro ⟨q', hqq, h1, h2⟩
          exfalso
          obtain rfl : q = q' := Option.some.inj hqq
          rcases hc with hc | hc <;> linarith
      · rw [Bool.true_and, halc, if_neg hc]
        push_neg at hc
        simp [hc.1, hc.2]
  · intro isUrl f hty hok
    rw [validateForm_split, hok]
    have halc : (validateErrors isUrl f).alcoholPercentage = none := by
      simp [validateErrors, hty]
    simp [halc]

theorem menu_item_alcohol_validation_witness :
    validateForm (fun _ => false)
      { name := "Beer", description := "Cold lager", price := "5", photo := "",
        ty := "alcohol", alcoholPercentage := "", volume := "" } = false ∧
    validateForm (fun _ => false)
      { name := "Beer", description := "Cold lager", price := "5", photo := "",
        ty := "alcohol", alcoholPercentage := "40", volume := "" } = true ∧
    validateForm (fun _ => false)
      { name := "Taco", description := "Al pastor", price := "5", photo := "",
        ty := "comida", alcoholPercentage := "garbage", volume := "" } = true :=
  ⟨menu_item_alcohol_validation.1 _ _ rfl (by decide),
   (menu_item_alcohol_validation.2.1 _ _ rfl (by decide) (by decide)).mpr
     ⟨40, by decide, by norm_num, by norm_num⟩,
   menu_item_alcohol_validation.2.2 _ _ rfl (by decide)⟩

theorem jsTrim_length_le (s : String) : (jsTrim s).length ≤ s.length := by
  show (((s.data.dropWhile Char.isWhitespace).reverse.dropWhile
      Char.isWhitespace).reverse).length ≤ s.data.length
  rw [List.length_reverse]
  calc ((s.data.dropWhile Char.isWhitespace).reverse.dropWhile
          Char.isWhitespace).length
      ≤ (s.data.dropWhile Char.isWhitespace).reverse.length :=
        (List.dropWhile_sublist _).length_le
    _ = (s.data.dropWhile Char.isWhitespace).length := List.length_reverse _
    _ ≤ s.data.length := (List.dropWhile_sublist _).length_le

theorem jsTrim_eq_self_of_length (s : String)
    (h : (jsTrim s).length = s.length) : jsTrim s = s := by
  obtain ⟨l⟩ := s
  have hh : (((l.dropWhile Char.isWhitespace).reverse.dropWhile
      Char.isWhitespace).reverse).length = l.length := h
  rw [List.length_reverse] at hh
  have ha : (l.dropWhile Char.isWhitespace).length ≤ l.length :=
    (List.dropWhile_sublist _).length_le
  have hb : ((l.dropWhile Char.isWhitespace).reverse.dropWhile
      Char.isWhitespace).length ≤ (l.dropWhile Char.isWhitespace).length := by
    have := (List.dropWhile_sublist (l := (l.dropWhile Char.isWhitespace).reverse)
      Char.isWhitespace).length_le
    rwa [List.length_reverse] at this
  have e1 : l.dropWhile Char.isWhitespace = l :=
    (List.dropWhile_sublist _).eq_of_length (by omega)
  have e2 : (l.dropWhile Char.isWhitespace).reverse.dropWhile Char.isWhitespace =
      (l.dropWhile Char.isWhitespace).reverse :=
    (List.dropWhile_sublist _).eq_of_length (by rw [List.length_reverse]; omega)
  show String.mk (((l.dropWhile Char.isWhitespace).reverse.dropWhile
      Char.isWhitespace).reverse) = String.mk l
  rw [e2, List.reverse_reverse, e1]

/-- C7 (amended): with a rating from 1 to 5 selected, a submission whose
comment has length 9 is always rejected client-side with no network call
(trimming cannot lengthen the comment); a submission whose comment has
length 10 is accepted — the create or update call is issued — exactly when
the comment carries no leading or trailing whitespace, i.e. trimming
leaves it unchanged. -/
theorem review_comment_length_gate :
    (∀ (barId : String) (ex : Option ExistingReview) (r : Nat) (c : String),
       1 ≤ r → r ≤ 5 → c.length = 9 →
         networkCalled (handleSubmit barId ex r c) = false) ∧
    (∀ (barId : String) (ex : Option ExistingReview) (r : Nat) (c : String),
       1 ≤ r → r ≤ 5 → c.length = 10 →
         (networkCalled (handleSubmit barId ex r c) = true ↔ jsTrim c = c)) := by
  constructor
  · intro barId ex r c hr1 _ hlen
    have hr0 : ¬ r = 0 := by omega
    have hlt : (jsTrim c).length < 10 := by
      have := jsTrim_length_le c
      omega
    simp [handleSubmit, hr0, hlt, networkCalled]
  · intro barId ex r c hr1 _ hlen
    have hr0 : ¬ r = 0 := by omega
    constructor
    · intro hnet
      by_contra htr
      have hne : (jsTrim c).length ≠ c.length := fun heq =>
        htr (jsTrim_eq_self_of_length c heq)
      have hlt : (jsTrim c).length < 10 := by
        have := jsTrim_length_le c
        omega
      simp [handleSubmit, hr0, hlt, networkCalled] at hnet
    · intro htrim
      have hge : ¬ (jsTrim c).length < 10 := by
        rw [htrim]
        omega
      cases ex <;> simp [handleSubmit, hr0, hge, networkCalled]

/-- C7 counterexample: the comment made of nine letters and a trailing
space has length 10, yet with rating 5 its submission is rejected
client-side (its trimmed length is 9), so not every length-10 comment is
accepted. -/
theorem review_comment_length_counterexample :
    ("abcdefghi ".length = 10) ∧
    networkCalled (handleSubmit "bar1" none 5 "abcdefghi ") = false := by
  decide

theorem review_comment_length_gate_witness :
    networkCalled (handleSubmit "bar1" none 3 "ninechars") = false ∧
    networkCalled (handleSubmit "bar1" none 4 "abcdefghij") = true :=
  ⟨review_comment_length_gate.1 "bar1" none 3 "ninechars"
     (by decide) (by decide) (by decide),
   (review_comment_length_gate.2 "bar1" none 4 "abcdefghij"
     (by decide) (by decide) (by decide)).mpr (by decide)⟩
